import Mathlib

/-!
Shallow embedding of the Weather-API repository (FastAPI + Redis cache-aside
weather proxy) and proofs about its cache, lock and fetch-orchestration logic.

Embedded source files:
* `src/app/services/cache.py` — `RedisCache.get_json`, `RedisCache.set_json`,
  `RedisCache.acquire_lock`, `RedisCache.release_lock`, `rounded_coords`.
* `src/app/main.py` — orchestrator handlers `_fetch_current` and
  `_fetch_forecast` (the module exercised by `src/tests/test_endpoints.py`).
* `src/main.py` — the legacy top-level copies `current_weather` and `forecast`
  (same state machine, but the module never imports `httpx`, so evaluating its
  `except httpx.HTTPStatusError` clause raises `NameError` whenever any
  exception reaches the `except` clauses).

Modelling conventions:
* JSON values are the inductive `Json`; Python `None` appearing as an optional
  value is `Option.none`.
* The shared Redis store is a function from keys to stored values.  Cache keys
  `"{resource}:{units}:{rlat}:{rlon}"` and lock keys `"lock:" + key` are
  modelled by the injective inductive `StoreKey` (units match
  `^(metric|imperial)$` and coordinate reprs contain no `:`, so the string
  format is injective and the inductive is a faithful rendering).
* Wall-clock time (`time.time()`) is an explicit `now : Int` parameter.
* Redis-side TTL expiry is behaviour of the external store, not of this
  repository, and is not modelled; `set_json` therefore ignores its
  `ttl_seconds` argument beyond receiving it.
* Python float coordinates are modelled as rationals; `round(x, d)` is exact
  decimal round-half-to-even (the spec allows either tie-break; binary-float
  representation error is not modelled).
* Exceptions are explicit: `Except` for expression-level failure
  (`AttributeError` from `x.get(...)` on a non-dict), and `HandlerResult` for
  what a whole request handler produces (normal response, raised
  `fastapi.HTTPException`, or an exception escaping the handler).
  Response-model (pydantic) field validation is framework behaviour outside
  `src/` and is not modelled; response fields hold raw `Json` values.
-/

/-- JSON values, as produced by Python `json.loads`. -/
inductive Json where
  | null
  | bool (b : Bool)
  | num (n : Int)
  | str (s : String)
  | arr (elems : List Json)
  | obj (fields : List (String × Json))

/-- Lookup in a JSON object field list (Python dict lookup; dicts have unique
keys, so first-match lookup is faithful). -/
def Json.lookup : List (String × Json) → String → Option Json
  | [], _ => none
  | (k, v) :: rest, key => if k = key then some v else Json.lookup rest key

/-- Python `x.get(k)` for `x` a parsed JSON value: returns Python `None`
(modelled `none`) when the key is absent or maps to JSON null, the value
otherwise, and raises `AttributeError` when `x` is not a dict. -/
def pyGet (x : Json) (k : String) : Except String (Option Json) :=
  match x with
  | .obj fields =>
      .ok (match Json.lookup fields k with
        | some .null => none
        | v => v)
  | _ => .error "AttributeError"

/-- Python `x.get(k, default)`: the stored value (even when it is JSON null)
if the key is present, the default if absent; `AttributeError` when `x` is not
a dict. -/
def pyGetD (x : Json) (k : String) (default : Json) : Except String Json :=
  match x with
  | .obj fields =>
      .ok (match Json.lookup fields k with
        | some v => v
        | none => default)
  | _ => .error "AttributeError"

/-- Python `a or b` where `a` is an optional string (handler keyword argument)
and `b` models the fallback expression: `a` wins unless it is `None` or the
empty string (both falsy).  `b` is a pure `Except` value, so selecting `a`
also discards any error `b` carries, matching Python short-circuit. -/
def pyOrOptStr (a : Option String) (b : Except String (Option Json)) :
    Except String (Option Json) :=
  match a with
  | some s => if s = "" then b else .ok (some (.str s))
  | none => b

/-- JSON round-trip of a payload written by `set_json`: reading back
`obj.get("payload")` yields Python `None` exactly when the written payload was
JSON null. -/
def storedPayload (j : Json) : Option Json :=
  match j with
  | .null => none
  | j => some j

/-- Result record returned by `RedisCache.get_json`
(`CacheResult` in `src/app/services/cache.py`). -/
structure CacheResult where
  value : Option Json
  hit : Bool
  age_seconds : Option Int
  stale : Bool

/-- Keys of the shared Redis store.  `data r u rlat rlon` models the string
`"{r}:{u}:{rlat}:{rlon}"` and `lock r u rlat rlon` models
`"lock:{r}:{u}:{rlat}:{rlon}"`; both string formats are injective on the
components, so this inductive is a faithful rendering of the key space. -/
inductive StoreKey where
  | data (resource : String) (units : String) (rlat rlon : ℚ)
  | lock (resource : String) (units : String) (rlat rlon : ℚ)
deriving DecidableEq

/-- Raw values held by the shared store, as seen through `json.loads`:
a decodable cache record (`{"stored_at": <int>, "payload": ...}`, with a
missing `stored_at` decoding to `0` via `int(obj.get("stored_at", 0))` and a
missing-or-null `payload` field decoding to Python `None`), the `"1"` marker
written by `acquire_lock`, or any raw value on which decoding to such a
record raises (malformed JSON, non-dict JSON, uncoercible `stored_at`, or the
empty string rejected by `if not raw`). -/
inductive StoredVal where
  | record (stored_at : Int) (payload : Option Json)
  | lockMarker
  | malformed

/-- The shared Redis store: one key space holding cache records and lock
markers. -/
def Store : Type := StoreKey → Option StoredVal

/-- Embeds `RedisCache.get_json` (src/app/services/cache.py lines 26-38):
absent key → miss; decodable record → hit carrying the payload and
`age = max(0, now - stored_at)`; anything the decode `try` block raises on
(including the lock marker `"1"`, whose parse `1` has no `.get`) → the
`except` clause returns a miss. -/
def get_json (st : Store) (key : StoreKey) (now : Int) : CacheResult :=
  match st key with
  | none => ⟨none, false, none, false⟩
  | some (.record stored_at payload) =>
      ⟨payload, true, some (max 0 (now - stored_at)), false⟩
  | some .lockMarker => ⟨none, false, none, false⟩
  | some .malformed => ⟨none, false, none, false⟩

/-- Embeds `RedisCache.set_json` (src/app/services/cache.py lines 40-42):
unconditionally overwrites `key` with `{"stored_at": now, "payload": payload}`
via `SETEX`.  The `ttl_seconds` argument configures Redis-side expiry, which
is external-store behaviour and not modelled. -/
def set_json (st : Store) (key : StoreKey) (payload : Json)
    (_ttl_seconds : ℕ) (now : Int) : Store :=
  fun k => if k = key then some (.record now (storedPayload payload)) else st k

/-- Embeds `RedisCache.acquire_lock` (src/app/services/cache.py lines 44-45):
a single Redis `SET lock_key "1" NX PX ttl_ms`, which atomically creates the
entry and returns true iff the key was absent, and has no effect otherwise. -/
def acquire_lock (st : Store) (lock_key : StoreKey) : Bool × Store :=
  match st lock_key with
  | none => (true, fun k => if k = lock_key then some .lockMarker else st k)
  | some _ => (false, st)

/-- Embeds `RedisCache.release_lock` (src/app/services/cache.py lines 47-51):
unconditional `DEL` of the key (the `try/except pass` swallows only
Redis-client errors, which are outside the model). -/
def release_lock (st : Store) (lock_key : StoreKey) : Store :=
  fun k => if k = lock_key then none else st k

/-- Round-half-to-even of a rational to an integer, the tie-break Python
`round` uses on the decimal value. -/
def roundHalfEven (q : ℚ) : ℤ :=
  if q - (⌊q⌋ : ℚ) < 1 / 2 then ⌊q⌋
  else if 1 / 2 < q - (⌊q⌋ : ℚ) then ⌊q⌋ + 1
  else if ⌊q⌋ % 2 = 0 then ⌊q⌋ else ⌊q⌋ + 1

/-- Python `round(x, decimals)` as exact decimal rounding of a rational. -/
def pyRound (x : ℚ) (decimals : ℤ) : ℚ :=
  (roundHalfEven (x * 10 ^ decimals) : ℚ) / 10 ^ decimals

/-- Embeds `rounded_coords` (src/app/services/cache.py lines 54-55). -/
def rounded_coords (lat lon : ℚ) (decimals : ℤ) : ℚ × ℚ :=
  (pyRound lat decimals, pyRound lon decimals)

/-- Embeds the `Location` response model (src/app/models.py).  Field values
are kept as raw `Json`; pydantic validation is framework behaviour outside
`src/` and is not modelled. -/
structure Location where
  lat : ℚ
  lon : ℚ
  name : Option Json
  country : Option Json

/-- Embeds the `CacheInfo` response model (src/app/models.py). -/
structure CacheInfo where
  hit : Bool
  age_seconds : Option Int
  stale : Bool

/-- Embeds the `ProviderInfo` response model (src/app/models.py). -/
structure ProviderInfo where
  name : String
  data_timestamp : Option Json

/-- Embeds the `CurrentWeatherResponse` model (src/app/models.py). -/
structure CurrentWeatherResponse where
  location : Location
  units : String
  observed_at : Option String
  current : Json
  provider : ProviderInfo
  cache : CacheInfo

/-- Embeds the `ForecastResponse` model (src/app/models.py). -/
structure ForecastResponse where
  location : Location
  units : String
  forecast : Json
  provider : ProviderInfo
  cache : CacheInfo

/-- Behaviour of the awaited upstream call (`ow.get_current` /
`ow.get_forecast`): a decoded JSON body, a raised `httpx.HTTPStatusError`
carrying the upstream status and body text, or any other raised exception
(network error, timeout, ...) with its message. -/
inductive UpstreamBehavior where
  | ok (data : Json)
  | httpStatusError (status : ℕ) (body : String)
  | otherError (msg : String)

/-- What a request handler produces: a normal response, a raised
`fastapi.HTTPException` (status code and detail), or an exception escaping
the handler uncaught (which the surrounding framework would turn into a
generic 500). -/
inductive HandlerResult (ρ : Type) where
  | ok (resp : ρ)
  | httpError (status_code : ℕ) (detail : String)
  | uncaught (msg : String)

/-- One observed execution of a handler: its produced result, the final state
of the shared store, and which effects ran (`acquire_lock` called, it
returned true, `release_lock` called, upstream fetch awaited, `set_json`
called). -/
structure HandlerRun (ρ : Type) where
  result : HandlerResult ρ
  store : Store
  lockAttempted : Bool
  lockAcquired : Bool
  lockReleased : Bool
  upstreamCalled : Bool
  cacheWritten : Bool

/-- Embeds the `CurrentWeatherResponse(...)` construction shared by the
cached and fresh branches of `_fetch_current` (src/app/main.py lines 92-103
and 113-124): evaluation order and `or` short-circuiting follow Python, so an
`AttributeError` from a `.get` on a non-dict is surfaced as `.error`. -/
def buildCurrentResponse (lat lon : ℚ) (units : String)
    (name country : Option String) (payload : Json) (cacheInfo : CacheInfo) :
    Except String CurrentWeatherResponse := do
  let jname ← pyOrOptStr name (pyGet payload "name")
  let jcountry ← pyOrOptStr country
    (do
      let sys ← pyGetD payload "sys" (.obj [])
      pyGet sys "country")
  let dt ← pyGet payload "dt"
  .ok
    { location := { lat := lat, lon := lon, name := jname, country := jcountry }
      units := units
      observed_at := none
      current := payload
      provider := { name := "openweather", data_timestamp := dt }
      cache := cacheInfo }

/-- Embeds the `city_info` computation and `ForecastResponse(...)`
construction shared by the branches of `_fetch_forecast` (src/app/main.py
lines 144-155 and 165-176).  `payload.get("city", {}) if isinstance(payload,
dict) else {}` guards the non-dict case, but a JSON-null `"city"` value still
makes the subsequent `.get` raise. -/
def buildForecastResponse (lat lon : ℚ) (units : String)
    (name country : Option String) (payload : Json) (cacheInfo : CacheInfo) :
    Except String ForecastResponse := do
  let city_info : Json :=
    match payload with
    | .obj fields =>
        (match Json.lookup fields "city" with
          | some v => v
          | none => .obj [])
    | _ => .obj []
  let jname ← pyOrOptStr name (pyGet city_info "name")
  let jcountry ← pyOrOptStr country (pyGet city_info "country")
  .ok
    { location := { lat := lat, lon := lon, name := jname, country := jcountry }
      units := units
      forecast := payload
      provider := { name := "openweather", data_timestamp := none }
      cache := cacheInfo }
/-- Post-miss stage of the per-request state machine shared by the four
orchestrator handlers (`_fetch_current`/`_fetch_forecast` in src/app/main.py
and `current_weather`/`forecast` in src/main.py), which differ only in
resource tag, TTL, response builder, and what their `except` clauses turn
each failure into.  Control flow, in source order: `acquire_lock`; on failure
the handler produces its busy outcome; on success the upstream call is
awaited, a success writes the cache via `set_json` and then builds the fresh
response (a shaping error now happens inside the `try`, producing
`onFreshBuildErr`), an `httpx.HTTPStatusError` produces
`onHttpStatusErr status body`, any other exception produces `onOtherErr msg`;
the `finally` calls `release_lock` exactly when `have_lock` is true. -/
def orchestrateMiss {ρ : Type} (key lock_key : StoreKey)
    (ttl : ℕ) (st : Store) (now : Int) (upstream : UpstreamBehavior)
    (build : Json → CacheInfo → Except String ρ)
    (busy : HandlerResult ρ)
    (onHttpStatusErr : ℕ → String → HandlerResult ρ)
    (onOtherErr : String → HandlerResult ρ)
    (onFreshBuildErr : String → HandlerResult ρ) : HandlerRun ρ :=
  let acq := acquire_lock st lock_key
  if acq.1 then
    match upstream with
    | .ok data =>
        let st2 := set_json acq.2 key data ttl now
        (match build data ⟨false, none, false⟩ with
          | .ok resp =>
              ⟨.ok resp, release_lock st2 lock_key,
                true, true, true, true, true⟩
          | .error e =>
              ⟨onFreshBuildErr e, release_lock st2 lock_key,
                true, true, true, true, true⟩)
    | .httpStatusError status body =>
        ⟨onHttpStatusErr status body, release_lock acq.2 lock_key,
          true, true, true, true, false⟩
    | .otherError msg =>
        ⟨onOtherErr msg, release_lock acq.2 lock_key,
          true, true, true, true, false⟩
  else
    ⟨busy, acq.2, true, false, false, false, false⟩

/-- Cache-consultation stage of the shared machine: a hit with non-null
payload short-circuits into the cached response, everything else continues
with `orchestrateMiss`. -/
def orchestrate {ρ : Type} (resource units : String) (rlat rlon : ℚ)
    (ttl : ℕ) (st : Store) (now : Int) (upstream : UpstreamBehavior)
    (build : Json → CacheInfo → Except String ρ)
    (busy : HandlerResult ρ)
    (onHttpStatusErr : ℕ → String → HandlerResult ρ)
    (onOtherErr : String → HandlerResult ρ)
    (onFreshBuildErr : String → HandlerResult ρ) : HandlerRun ρ :=
  let key := StoreKey.data resource units rlat rlon
  let lock_key := StoreKey.lock resource units rlat rlon
  let cached := get_json st key now
  match cached.hit, cached.value with
  | true, some payload =>
      (match build payload ⟨true, cached.age_seconds, cached.stale⟩ with
        | .ok resp => ⟨.ok resp, st, false, false, false, false, false⟩
        | .error e => ⟨.uncaught e, st, false, false, false, false, false⟩)
  | _, _ =>
      orchestrateMiss key lock_key ttl st now upstream build busy
        onHttpStatusErr onOtherErr onFreshBuildErr

/-- Embeds `_fetch_current` (src/app/main.py lines 84-133).  Lock-contention
raises a 503 `HTTPException` which passes through `except HTTPException:
raise`; an upstream `httpx.HTTPStatusError` becomes a 502 carrying the
upstream body text (the upstream status code itself is dropped); any other
exception inside the `try` — including an `AttributeError` raised while
shaping the fresh response after the cache write — becomes a 502 carrying
its message. -/
def fetch_current (decimals : ℤ) (ttl_current : ℕ) (lat lon : ℚ)
    (units : String) (name country : Option String) (st : Store) (now : Int)
    (upstream : UpstreamBehavior) : HandlerRun CurrentWeatherResponse :=
  orchestrate "current" units (rounded_coords lat lon decimals).1
    (rounded_coords lat lon decimals).2 ttl_current st now upstream
    (buildCurrentResponse lat lon units name country)
    (.httpError 503 "Weather refresh in progress, try again")
    (fun _status body => .httpError 502 body)
    (fun msg => .httpError 502 msg)
    (fun e => .httpError 502 e)

/-- Embeds `_fetch_forecast` (src/app/main.py lines 136-185): the same
machine with resource tag `"forecast"`, the forecast TTL, the forecast
response shape and its 503 detail text. -/
def fetch_forecast (decimals : ℤ) (ttl_forecast : ℕ) (lat lon : ℚ)
    (units : String) (name country : Option String) (st : Store) (now : Int)
    (upstream : UpstreamBehavior) : HandlerRun ForecastResponse :=
  orchestrate "forecast" units (rounded_coords lat lon decimals).1
    (rounded_coords lat lon decimals).2 ttl_forecast st now upstream
    (buildForecastResponse lat lon units name country)
    (.httpError 503 "Forecast refresh in progress, try again")
    (fun _status body => .httpError 502 body)
    (fun msg => .httpError 502 msg)
    (fun e => .httpError 502 e)

/-- Message marker for the Python `NameError` raised inside the `except`
clauses of src/main.py, which never imports `httpx` (the real text is
NameError: name httpx is not defined). -/
def nameErrorMsg : String := "NameError"

/-- Embeds the legacy `current_weather` handler (src/main.py lines 20-66).
The handler takes no `name`/`country` keyword arguments.  Its `try` block
differs crucially from src/app/main.py: the module never imports `httpx`, so
as soon as any exception reaches `except httpx.HTTPStatusError`, evaluating
that clause raises `NameError`, which escapes the handler; the later `except
Exception` clause is never consulted.  This turns the 503 busy path, both
upstream-failure paths and the post-write shaping-error path into an uncaught
`NameError` (surfaced by the framework as a generic 500).  The `finally`
still releases the lock exactly when `have_lock` is true. -/
def legacy_current_weather (decimals : ℤ) (ttl_current : ℕ) (lat lon : ℚ)
    (units : String) (st : Store) (now : Int)
    (upstream : UpstreamBehavior) : HandlerRun CurrentWeatherResponse :=
  orchestrate "current" units (rounded_coords lat lon decimals).1
    (rounded_coords lat lon decimals).2 ttl_current st now upstream
    (buildCurrentResponse lat lon units none none)
    (.uncaught nameErrorMsg)
    (fun _status _body => .uncaught nameErrorMsg)
    (fun _msg => .uncaught nameErrorMsg)
    (fun _e => .uncaught nameErrorMsg)

/-- Embeds the legacy `forecast` handler (src/main.py lines 69-113), with the
same missing-`httpx`-import behaviour as `legacy_current_weather`. -/
def legacy_forecast (decimals : ℤ) (ttl_forecast : ℕ) (lat lon : ℚ)
    (units : String) (st : Store) (now : Int)
    (upstream : UpstreamBehavior) : HandlerRun ForecastResponse :=
  orchestrate "forecast" units (rounded_coords lat lon decimals).1
    (rounded_coords lat lon decimals).2 ttl_forecast st now upstream
    (buildForecastResponse lat lon units none none)
    (.uncaught nameErrorMsg)
    (fun _status _body => .uncaught nameErrorMsg)
    (fun _msg => .uncaught nameErrorMsg)
    (fun _e => .uncaught nameErrorMsg)
/-! ## Helper lemmas -/

/-- Rounding an integer leaves it unchanged. -/
theorem roundHalfEven_intCast (n : ℤ) : roundHalfEven (n : ℚ) = n := by
  unfold roundHalfEven
  rw [Int.floor_intCast]
  norm_num

/-- Decimal rounding is idempotent. -/
theorem pyRound_idem (x : ℚ) (d : ℤ) : pyRound (pyRound x d) d = pyRound x d := by
  unfold pyRound
  rw [div_mul_cancel₀ _ (zpow_ne_zero d (by norm_num : (10 : ℚ) ≠ 0)),
    roundHalfEven_intCast]

/-! ## Claim theorems -/

/-- C7: coordinate normalization is idempotent — for every coordinate pair
and precision, `rounded_coords` applied to its own output (same precision)
returns that output unchanged. -/
theorem C7_rounded_coords_idempotent (lat lon : ℚ) (decimals : ℤ) :
    rounded_coords (rounded_coords lat lon decimals).1
      (rounded_coords lat lon decimals).2 decimals =
      rounded_coords lat lon decimals := by
  unfold rounded_coords
  rw [pyRound_idem, pyRound_idem]

/-- C5: `get_json` returns not-found (no payload, `hit = false`, no age) when
the key is absent and equally when the stored raw value fails to decode as a
valid record (malformed data, or the lock marker read back as data); a
malformed record is never surfaced as an error. -/
theorem C5_get_json_not_found (st : Store) (key : StoreKey) (now : Int) :
    (st key = none → get_json st key now = ⟨none, false, none, false⟩) ∧
    (st key = some .malformed →
      get_json st key now = ⟨none, false, none, false⟩) ∧
    (st key = some .lockMarker →
      get_json st key now = ⟨none, false, none, false⟩) := by
  refine ⟨?_, ?_, ?_⟩ <;> intro h <;> simp [get_json, h]

/-- Witness for C5 at concrete inputs: an empty store and a store holding an
undecodable value both produce the not-found result. -/
theorem C5_witness :
    get_json (fun _ => none) (StoreKey.data "current" "metric" 0 0) 100 =
      ⟨none, false, none, false⟩ ∧
    get_json (fun _ => some .malformed) (StoreKey.data "current" "metric" 0 0)
      100 = ⟨none, false, none, false⟩ :=
  ⟨(C5_get_json_not_found (fun _ => none)
      (StoreKey.data "current" "metric" 0 0) 100).1 rfl,
    (C5_get_json_not_found (fun _ => some .malformed)
      (StoreKey.data "current" "metric" 0 0) 100).2.1 rfl⟩

/-- C6: a `get_json` hit always comes from a stored record and carries
`age_seconds = max 0 (now - stored_at)`; any reported age is non-negative
(even for a future `stored_at`); and a `get_json` immediately after
`set_json` (same clock instant) is a hit with `age_seconds = 0`. -/
theorem C6_age_semantics (st : Store) (key : StoreKey) (now : Int) :
    ((get_json st key now).hit = true →
      ∃ t p, st key = some (.record t p) ∧
        (get_json st key now).age_seconds = some (max 0 (now - t))) ∧
    (∀ a, (get_json st key now).age_seconds = some a → 0 ≤ a) ∧
    (∀ payload ttl,
      (get_json (set_json st key payload ttl now) key now).hit = true ∧
      (get_json (set_json st key payload ttl now) key now).age_seconds =
        some 0) := by
  refine ⟨?_, ?_, ?_⟩
  · intro h
    match hkey : st key with
    | none => simp [get_json, hkey] at h
    | some (.record t p) =>
        exact ⟨t, p, rfl, by simp [get_json, hkey]⟩
    | some .lockMarker => simp [get_json, hkey] at h
    | some .malformed => simp [get_json, hkey] at h
  · intro a ha
    match hkey : st key with
    | none => simp [get_json, hkey] at ha
    | some (.record t p) =>
        simp [get_json, hkey] at ha
        omega
    | some .lockMarker => simp [get_json, hkey] at ha
    | some .malformed => simp [get_json, hkey] at ha
  · intro payload ttl
    constructor <;> simp [get_json, set_json]

/-- Witness for C6 at concrete inputs: a record stored 30 seconds ago reports
age 30, and a write followed by a read at the same instant reports a hit of
age 0. -/
theorem C6_witness :
    (∃ t p,
      ((fun _ => some (StoredVal.record 70 none)) : Store)
          (StoreKey.data "current" "metric" 0 0) =
        some (StoredVal.record t p) ∧
      (get_json (fun _ => some (StoredVal.record 70 none))
          (StoreKey.data "current" "metric" 0 0) 100).age_seconds =
        some (max 0 (100 - t))) ∧
    (get_json
        (set_json (fun _ => none) (StoreKey.data "current" "metric" 0 0)
          (.num 5) 120 100)
        (StoreKey.data "current" "metric" 0 0) 100).hit = true ∧
    (get_json
        (set_json (fun _ => none) (StoreKey.data "current" "metric" 0 0)
          (.num 5) 120 100)
        (StoreKey.data "current" "metric" 0 0) 100).age_seconds = some 0 :=
  ⟨(C6_age_semantics (fun _ => some (StoredVal.record 70 none))
      (StoreKey.data "current" "metric" 0 0) 100).1 rfl,
    ((C6_age_semantics (fun _ => none)
        (StoreKey.data "current" "metric" 0 0) 100).2.2 (.num 5) 120).1,
    ((C6_age_semantics (fun _ => none)
        (StoreKey.data "current" "metric" 0 0) 100).2.2 (.num 5) 120).2⟩

/-- C8: `acquire_lock` succeeds exactly when the key is absent, in which case
it creates the lock entry; when the key is held it returns false with no side
effect; hence a second acquire before release fails, and acquire after
release succeeds again. -/
theorem C8_acquire_release_semantics (st : Store) (k : StoreKey) :
    ((acquire_lock st k).1 = true ↔ st k = none) ∧
    (st k = none → (acquire_lock st k).2 k = some .lockMarker) ∧
    (∀ v, st k = some v → acquire_lock st k = (false, st)) ∧
    ((acquire_lock st k).1 = true →
      (acquire_lock (acquire_lock st k).2 k).1 = false) ∧
    (acquire_lock (release_lock st k) k).1 = true := by
  refine ⟨?_, ?_, ?_, ?_, ?_⟩
  · constructor
    · intro h
      match hkey : st k with
      | none => rfl
      | some v => simp [acquire_lock, hkey] at h
    · intro h; simp [acquire_lock, h]
  · intro h; simp [acquire_lock, h]
  · intro v h; simp [acquire_lock, h]
  · intro h
    match hkey : st k with
    | none => simp [acquire_lock, hkey]
    | some v => simp [acquire_lock, hkey] at h
  · simp [acquire_lock, release_lock]

/-- Witness for C8 at concrete inputs: on the empty store the first acquire
succeeds, a second acquire of the same key fails, and releasing then
reacquiring succeeds. -/
theorem C8_witness :
    (acquire_lock (fun _ => none)
      (StoreKey.lock "current" "metric" 0 0)).1 = true ∧
    (acquire_lock
      (acquire_lock (fun _ => none)
        (StoreKey.lock "current" "metric" 0 0)).2
      (StoreKey.lock "current" "metric" 0 0)).1 = false ∧
    (acquire_lock
      (release_lock (fun _ => none) (StoreKey.lock "current" "metric" 0 0))
      (StoreKey.lock "current" "metric" 0 0)).1 = true :=
  ⟨(C8_acquire_release_semantics (fun _ => none)
      (StoreKey.lock "current" "metric" 0 0)).1.mpr rfl,
    (C8_acquire_release_semantics (fun _ => none)
      (StoreKey.lock "current" "metric" 0 0)).2.2.2.1
      ((C8_acquire_release_semantics (fun _ => none)
        (StoreKey.lock "current" "metric" 0 0)).1.mpr rfl),
    (C8_acquire_release_semantics (fun _ => none)
      (StoreKey.lock "current" "metric" 0 0)).2.2.2.2⟩

/-- Busy path of the shared machine: with the lock key held, `acquire_lock`
returns false with the store untouched, and the handler exits with its busy
outcome, no release, no upstream call, no cache write. -/
theorem orchestrateMiss_busy {ρ : Type} (key lock_key : StoreKey) (ttl : ℕ)
    (st : Store) (now : Int) (up : UpstreamBehavior)
    (build : Json → CacheInfo → Except String ρ) (busy : HandlerResult ρ)
    (onHttpStatusErr : ℕ → String → HandlerResult ρ)
    (onOtherErr : String → HandlerResult ρ)
    (onFreshBuildErr : String → HandlerResult ρ)
    (v : StoredVal) (hheld : st lock_key = some v) :
    orchestrateMiss key lock_key ttl st now up build busy onHttpStatusErr
      onOtherErr onFreshBuildErr =
      ⟨busy, st, true, false, false, false, false⟩ := by
  unfold orchestrateMiss
  simp [acquire_lock, hheld]

/-- Upstream-HTTP-error path of the shared machine with a free lock. -/
theorem orchestrateMiss_httpStatusError {ρ : Type} (key lock_key : StoreKey)
    (ttl : ℕ) (st : Store) (now : Int)
    (build : Json → CacheInfo → Except String ρ) (busy : HandlerResult ρ)
    (onHttpStatusErr : ℕ → String → HandlerResult ρ)
    (onOtherErr : String → HandlerResult ρ)
    (onFreshBuildErr : String → HandlerResult ρ)
    (status : ℕ) (body : String) (hfree : st lock_key = none) :
    orchestrateMiss key lock_key ttl st now (.httpStatusError status body)
      build busy onHttpStatusErr onOtherErr onFreshBuildErr =
      ⟨onHttpStatusErr status body,
        release_lock (fun k => if k = lock_key then some .lockMarker else st k)
          lock_key,
        true, true, true, true, false⟩ := by
  unfold orchestrateMiss
  simp [acquire_lock, hfree]

/-- Upstream-other-exception path of the shared machine with a free lock. -/
theorem orchestrateMiss_otherError {ρ : Type} (key lock_key : StoreKey)
    (ttl : ℕ) (st : Store) (now : Int)
    (build : Json → CacheInfo → Except String ρ) (busy : HandlerResult ρ)
    (onHttpStatusErr : ℕ → String → HandlerResult ρ)
    (onOtherErr : String → HandlerResult ρ)
    (onFreshBuildErr : String → HandlerResult ρ)
    (msg : String) (hfree : st lock_key = none) :
    orchestrateMiss key lock_key ttl st now (.otherError msg)
      build busy onHttpStatusErr onOtherErr onFreshBuildErr =
      ⟨onOtherErr msg,
        release_lock (fun k => if k = lock_key then some .lockMarker else st k)
          lock_key,
        true, true, true, true, false⟩ := by
  unfold orchestrateMiss
  simp [acquire_lock, hfree]

/-- Fresh path of the shared machine with a free lock and a successful
upstream call: the cache is written first, then the response is built. -/
theorem orchestrateMiss_fresh {ρ : Type} (key lock_key : StoreKey)
    (ttl : ℕ) (st : Store) (now : Int)
    (build : Json → CacheInfo → Except String ρ) (busy : HandlerResult ρ)
    (onHttpStatusErr : ℕ → String → HandlerResult ρ)
    (onOtherErr : String → HandlerResult ρ)
    (onFreshBuildErr : String → HandlerResult ρ)
    (data : Json) (hfree : st lock_key = none) :
    orchestrateMiss key lock_key ttl st now (.ok data)
      build busy onHttpStatusErr onOtherErr onFreshBuildErr =
      ⟨(match build data ⟨false, none, false⟩ with
          | .ok resp => .ok resp
          | .error e => onFreshBuildErr e),
        release_lock
          (set_json
            (fun k => if k = lock_key then some .lockMarker else st k)
            key data ttl now)
          lock_key,
        true, true, true, true, true⟩ := by
  unfold orchestrateMiss
  simp only [acquire_lock, hfree]
  split
  · split <;> simp_all
  · simp_all

/-- The store after acquire, optional cache write at a different key, and
release is pointwise unchanged at the lock key when it started free. -/
theorem release_after_acquire_store (st : Store) (lock_key : StoreKey)
    (hfree : st lock_key = none) (k : StoreKey) :
    release_lock (fun k2 => if k2 = lock_key then some .lockMarker else st k2)
      lock_key k = st k := by
  unfold release_lock
  by_cases hk : k = lock_key
  · subst hk; simp [hfree]
  · simp [hk]

/-- Cache-hit shape of the shared machine: a stored record with non-null
payload makes the handler return the cached build (or let a shaping error
escape uncaught), consulting neither lock nor upstream nor writing. -/
theorem orchestrate_hit {ρ : Type} (resource units : String) (rlat rlon : ℚ)
    (ttl : ℕ) (st : Store) (now : Int) (up : UpstreamBehavior)
    (build : Json → CacheInfo → Except String ρ) (busy : HandlerResult ρ)
    (onHttpStatusErr : ℕ → String → HandlerResult ρ)
    (onOtherErr : String → HandlerResult ρ)
    (onFreshBuildErr : String → HandlerResult ρ)
    (t : Int) (p : Json)
    (h : st (StoreKey.data resource units rlat rlon) =
      some (.record t (some p))) :
    orchestrate resource units rlat rlon ttl st now up build busy
      onHttpStatusErr onOtherErr onFreshBuildErr =
      ⟨(match build p ⟨true, some (max 0 (now - t)), false⟩ with
          | .ok resp => .ok resp
          | .error e => .uncaught e),
        st, false, false, false, false, false⟩ := by
  unfold orchestrate
  simp only [get_json, h]
  split <;> simp_all

/-- Cache-miss shape of the shared machine: unless the key holds a record
with non-null payload, the handler continues with the post-miss stage. -/
theorem orchestrate_miss {ρ : Type} (resource units : String) (rlat rlon : ℚ)
    (ttl : ℕ) (st : Store) (now : Int) (up : UpstreamBehavior)
    (build : Json → CacheInfo → Except String ρ) (busy : HandlerResult ρ)
    (onHttpStatusErr : ℕ → String → HandlerResult ρ)
    (onOtherErr : String → HandlerResult ρ)
    (onFreshBuildErr : String → HandlerResult ρ)
    (h : ∀ t p, st (StoreKey.data resource units rlat rlon) ≠
      some (.record t (some p))) :
    orchestrate resource units rlat rlon ttl st now up build busy
      onHttpStatusErr onOtherErr onFreshBuildErr =
      orchestrateMiss (StoreKey.data resource units rlat rlon)
        (StoreKey.lock resource units rlat rlon) ttl st now up build busy
        onHttpStatusErr onOtherErr onFreshBuildErr := by
  unfold orchestrate
  cases hst : st (StoreKey.data resource units rlat rlon) with
  | none => simp [get_json, hst]
  | some v =>
      cases v with
      | record t p =>
          cases p with
          | none => simp [get_json, hst]
          | some q => exact absurd hst (h t q)
      | lockMarker => simp [get_json, hst]
      | malformed => simp [get_json, hst]

/-- Release discipline of the post-miss stage: every exit that acquired the
lock also released it. -/
theorem orchestrateMiss_release {ρ : Type} (key lock_key : StoreKey)
    (ttl : ℕ) (st : Store) (now : Int) (up : UpstreamBehavior)
    (build : Json → CacheInfo → Except String ρ) (busy : HandlerResult ρ)
    (onHttpStatusErr : ℕ → String → HandlerResult ρ)
    (onOtherErr : String → HandlerResult ρ)
    (onFreshBuildErr : String → HandlerResult ρ) :
    (orchestrateMiss key lock_key ttl st now up build busy onHttpStatusErr
      onOtherErr onFreshBuildErr).lockAcquired = true →
    (orchestrateMiss key lock_key ttl st now up build busy onHttpStatusErr
      onOtherErr onFreshBuildErr).lockReleased = true := by
  cases hlk : st lock_key with
  | some v =>
      rw [orchestrateMiss_busy key lock_key ttl st now up build busy
        onHttpStatusErr onOtherErr onFreshBuildErr v hlk]
      simp
  | none =>
      cases up with
      | ok data =>
          rw [orchestrateMiss_fresh key lock_key ttl st now build busy
            onHttpStatusErr onOtherErr onFreshBuildErr data hlk]
          simp
      | httpStatusError status body =>
          rw [orchestrateMiss_httpStatusError key lock_key ttl st now build
            busy onHttpStatusErr onOtherErr onFreshBuildErr status body hlk]
          simp
      | otherError msg =>
          rw [orchestrateMiss_otherError key lock_key ttl st now build busy
            onHttpStatusErr onOtherErr onFreshBuildErr msg hlk]
          simp

/-- Release discipline of the whole machine. -/
theorem orchestrate_release {ρ : Type} (resource units : String)
    (rlat rlon : ℚ) (ttl : ℕ) (st : Store) (now : Int)
    (up : UpstreamBehavior) (build : Json → CacheInfo → Except String ρ)
    (busy : HandlerResult ρ)
    (onHttpStatusErr : ℕ → String → HandlerResult ρ)
    (onOtherErr : String → HandlerResult ρ)
    (onFreshBuildErr : String → HandlerResult ρ) :
    (orchestrate resource units rlat rlon ttl st now up build busy
      onHttpStatusErr onOtherErr onFreshBuildErr).lockAcquired = true →
    (orchestrate resource units rlat rlon ttl st now up build busy
      onHttpStatusErr onOtherErr onFreshBuildErr).lockReleased = true := by
  by_cases h : ∃ t p, st (StoreKey.data resource units rlat rlon) =
      some (.record t (some p))
  · obtain ⟨t, p, hst⟩ := h
    rw [orchestrate_hit resource units rlat rlon ttl st now up build busy
      onHttpStatusErr onOtherErr onFreshBuildErr t p hst]
    simp
  · push_neg at h
    rw [orchestrate_miss resource units rlat rlon ttl st now up build busy
      onHttpStatusErr onOtherErr onFreshBuildErr h]
    exact orchestrateMiss_release _ _ ttl st now up build busy
      onHttpStatusErr onOtherErr onFreshBuildErr

/-- C1: in every execution of the orchestrator handlers (`_fetch_current` /
`_fetch_forecast`) in which `acquire_lock` returned true, `release_lock` is
called on the lock key before the handler terminates, on every exit path:
normal return of a fresh result, upstream HTTP error, and any other raised
exception.  Stated for both src/app/main.py handlers and for the legacy
copies in src/main.py, whose `finally` clause equally guarantees the
release. -/
theorem C1_lock_released_on_every_exit (decimals : ℤ) (ttl : ℕ) (lat lon : ℚ)
    (units : String) (name country : Option String) (st : Store) (now : Int)
    (up : UpstreamBehavior) :
    ((fetch_current decimals ttl lat lon units name country st now
        up).lockAcquired = true →
      (fetch_current decimals ttl lat lon units name country st now
        up).lockReleased = true) ∧
    ((fetch_forecast decimals ttl lat lon units name country st now
        up).lockAcquired = true →
      (fetch_forecast decimals ttl lat lon units name country st now
        up).lockReleased = true) ∧
    ((legacy_current_weather decimals ttl lat lon units st now
        up).lockAcquired = true →
      (legacy_current_weather decimals ttl lat lon units st now
        up).lockReleased = true) ∧
    ((legacy_forecast decimals ttl lat lon units st now
        up).lockAcquired = true →
      (legacy_forecast decimals ttl lat lon units st now
        up).lockReleased = true) :=
  ⟨orchestrate_release "current" units (rounded_coords lat lon decimals).1
      (rounded_coords lat lon decimals).2 ttl st now up
      (buildCurrentResponse lat lon units name country) _ _ _ _,
    orchestrate_release "forecast" units (rounded_coords lat lon decimals).1
      (rounded_coords lat lon decimals).2 ttl st now up
      (buildForecastResponse lat lon units name country) _ _ _ _,
    orchestrate_release "current" units (rounded_coords lat lon decimals).1
      (rounded_coords lat lon decimals).2 ttl st now up
      (buildCurrentResponse lat lon units none none) _ _ _ _,
    orchestrate_release "forecast" units (rounded_coords lat lon decimals).1
      (rounded_coords lat lon decimals).2 ttl st now up
      (buildForecastResponse lat lon units none none) _ _ _ _⟩

/-- Witness for C1 at a concrete input: on the empty store (cache miss, free
lock) with an upstream HTTP 500, `_fetch_current` acquires and then releases
the lock. -/
theorem C1_witness :
    (fetch_current 2 120 ((5151 : ℚ) / 100) ((-13 : ℚ) / 100) "metric" none
        none (fun _ => none) 100
        (.httpStatusError 500 "Internal Server Error")).lockAcquired = true ∧
    (fetch_current 2 120 ((5151 : ℚ) / 100) ((-13 : ℚ) / 100) "metric" none
        none (fun _ => none) 100
        (.httpStatusError 500 "Internal Server Error")).lockReleased = true :=
  have h : (fetch_current 2 120 ((5151 : ℚ) / 100) ((-13 : ℚ) / 100) "metric"
      none none (fun _ => none) 100
      (.httpStatusError 500 "Internal Server Error")).lockAcquired = true := by
    have e := orchestrateMiss_httpStatusError
      (StoreKey.data "current" "metric"
        (rounded_coords ((5151 : ℚ) / 100) ((-13 : ℚ) / 100) 2).1
        (rounded_coords ((5151 : ℚ) / 100) ((-13 : ℚ) / 100) 2).2)
      (StoreKey.lock "current" "metric"
        (rounded_coords ((5151 : ℚ) / 100) ((-13 : ℚ) / 100) 2).1
        (rounded_coords ((5151 : ℚ) / 100) ((-13 : ℚ) / 100) 2).2)
      120 (fun _ => none) 100
      (buildCurrentResponse ((5151 : ℚ) / 100) ((-13 : ℚ) / 100) "metric"
        none none)
      (.httpError 503 "Weather refresh in progress, try again")
      (fun _status body => .httpError 502 body)
      (fun msg => .httpError 502 msg)
      (fun e => .httpError 502 e)
      500 "Internal Server Error" rfl
    have m := orchestrate_miss "current" "metric"
      (rounded_coords ((5151 : ℚ) / 100) ((-13 : ℚ) / 100) 2).1
      (rounded_coords ((5151 : ℚ) / 100) ((-13 : ℚ) / 100) 2).2
      120 (fun _ => none) 100 (.httpStatusError 500 "Internal Server Error")
      (buildCurrentResponse ((5151 : ℚ) / 100) ((-13 : ℚ) / 100) "metric"
        none none)
      (.httpError 503 "Weather refresh in progress, try again")
      (fun _status body => .httpError 502 body)
      (fun msg => .httpError 502 msg)
      (fun e => .httpError 502 e)
      (by intro t p; simp)
    show (orchestrate "current" "metric" _ _ 120 (fun _ => none) 100 _ _ _ _
      _ _).lockAcquired = true
    rw [m, e]
  ⟨h,
    (C1_lock_released_on_every_exit 2 120 ((5151 : ℚ) / 100)
      ((-13 : ℚ) / 100) "metric" none none (fun _ => none) 100
      (.httpStatusError 500 "Internal Server Error")).1 h⟩

/-- A successful current-response build carries the given payload, cache
info and units verbatim. -/
theorem buildCurrentResponse_ok_fields (lat lon : ℚ) (units : String)
    (name country : Option String) (payload : Json) (ci : CacheInfo)
    (resp : CurrentWeatherResponse)
    (h : buildCurrentResponse lat lon units name country payload ci =
      .ok resp) :
    resp.current = payload ∧ resp.cache = ci ∧ resp.units = units := by
  unfold buildCurrentResponse at h
  simp only [bind, Except.bind] at h
  repeat' split at h
  all_goals simp_all
  all_goals subst h
  all_goals simp

/-- A successful forecast-response build carries the given payload, cache
info and units verbatim. -/
theorem buildForecastResponse_ok_fields (lat lon : ℚ) (units : String)
    (name country : Option String) (payload : Json) (ci : CacheInfo)
    (resp : ForecastResponse)
    (h : buildForecastResponse lat lon units name country payload ci =
      .ok resp) :
    resp.forecast = payload ∧ resp.cache = ci ∧ resp.units = units := by
  unfold buildForecastResponse at h
  simp only [bind, Except.bind] at h
  repeat' split at h
  all_goals simp_all
  all_goals subst h
  all_goals simp

/-- Sample current-conditions payload, shaped like the repository test
fixture SAMPLE_CURRENT. -/
def payloadLondon : Json :=
  .obj [("name", .str "London"), ("sys", .obj [("country", .str "GB")]),
    ("dt", .num 1700000000), ("main", .obj [("temp", .num 15)])]

/-- Store holding a well-formed record for the current-conditions key of the
London coordinates (stored 30 seconds before the scenario time 100). -/
def storeLondonHit : Store := fun k =>
  if k = StoreKey.data "current" "metric"
      (rounded_coords ((5151 : ℚ) / 100) ((-13 : ℚ) / 100) 2).1
      (rounded_coords ((5151 : ℚ) / 100) ((-13 : ℚ) / 100) 2).2
  then some (.record 70 (some payloadLondon)) else none

/-- Store holding a decodable record whose non-null payload is a bare JSON
number rather than an object. -/
def storeBadPayload : Store := fun k =>
  if k = StoreKey.data "current" "metric"
      (rounded_coords ((5151 : ℚ) / 100) ((-13 : ℚ) / 100) 2).1
      (rounded_coords ((5151 : ℚ) / 100) ((-13 : ℚ) / 100) 2).2
  then some (.record 70 (some (.num 5))) else none

/-- C2 counterexample: a request whose cache key holds a decodable record
with the non-null payload `5` does not make `_fetch_current` return the
cached payload — `payload.get("name")` raises `AttributeError` on the
non-dict payload before the `try` block, and the exception escapes the
handler. -/
theorem C2_counterexample :
    storeBadPayload (StoreKey.data "current" "metric"
      (rounded_coords ((5151 : ℚ) / 100) ((-13 : ℚ) / 100) 2).1
      (rounded_coords ((5151 : ℚ) / 100) ((-13 : ℚ) / 100) 2).2) =
      some (.record 70 (some (.num 5))) ∧
    (fetch_current 2 120 ((5151 : ℚ) / 100) ((-13 : ℚ) / 100) "metric" none
      none storeBadPayload 100 (.ok (.obj []))).result =
      .uncaught "AttributeError" := by
  constructor
  · simp [storeBadPayload]
  · unfold fetch_current
    rw [orchestrate_hit "current" "metric"
      (rounded_coords ((5151 : ℚ) / 100) ((-13 : ℚ) / 100) 2).1
      (rounded_coords ((5151 : ℚ) / 100) ((-13 : ℚ) / 100) 2).2
      120 storeBadPayload 100 (.ok (.obj []))
      (buildCurrentResponse ((5151 : ℚ) / 100) ((-13 : ℚ) / 100) "metric"
        none none)
      (.httpError 503 "Weather refresh in progress, try again")
      (fun _status body => .httpError 502 body)
      (fun msg => .httpError 502 msg)
      (fun e => .httpError 502 e)
      70 (.num 5) (by simp [storeBadPayload])]
    simp [buildCurrentResponse, pyOrOptStr, pyGet, bind, Except.bind]

/-- C2 (amended): for every request whose current-conditions cache key holds
a decodable record with non-null payload, `_fetch_current` never attempts
the lock, never invokes the upstream fetch and never writes the cache, and —
provided the response construction from the cached payload succeeds, which
requires the payload to be a JSON object with well-formed accessed fields —
returns the cached payload with `hit = true` and the record age
`max 0 (now - stored_at)`.  When the construction raises (e.g. a non-object
payload), the error escapes the handler uncaught, still with no upstream
call and no cache write. -/
theorem C2_cached_hit_no_upstream (decimals : ℤ) (ttl : ℕ) (lat lon : ℚ)
    (units : String) (name country : Option String) (st : Store) (now : Int)
    (up : UpstreamBehavior) (t : Int) (p : Json)
    (h : st (StoreKey.data "current" units (rounded_coords lat lon decimals).1
      (rounded_coords lat lon decimals).2) = some (.record t (some p))) :
    (fetch_current decimals ttl lat lon units name country st now
      up).upstreamCalled = false ∧
    (fetch_current decimals ttl lat lon units name country st now
      up).cacheWritten = false ∧
    (fetch_current decimals ttl lat lon units name country st now
      up).lockAttempted = false ∧
    (fetch_current decimals ttl lat lon units name country st now
      up).store = st ∧
    (∀ resp, buildCurrentResponse lat lon units name country p
        ⟨true, some (max 0 (now - t)), false⟩ = .ok resp →
      (fetch_current decimals ttl lat lon units name country st now
        up).result = .ok resp ∧
      resp.current = p ∧
      resp.cache = ⟨true, some (max 0 (now - t)), false⟩) ∧
    (∀ e, buildCurrentResponse lat lon units name country p
        ⟨true, some (max 0 (now - t)), false⟩ = .error e →
      (fetch_current decimals ttl lat lon units name country st now
        up).result = .uncaught e) := by
  have H := orchestrate_hit "current" units (rounded_coords lat lon decimals).1
    (rounded_coords lat lon decimals).2 ttl st now up
    (buildCurrentResponse lat lon units name country)
    (.httpError 503 "Weather refresh in progress, try again")
    (fun _status body => .httpError 502 body)
    (fun msg => .httpError 502 msg)
    (fun e => .httpError 502 e) t p h
  refine ⟨?_, ?_, ?_, ?_, ?_, ?_⟩
  · unfold fetch_current; rw [H]
  · unfold fetch_current; rw [H]
  · unfold fetch_current; rw [H]
  · unfold fetch_current; rw [H]
  · intro resp hresp
    refine ⟨?_, buildCurrentResponse_ok_fields lat lon units name country p
      ⟨true, some (max 0 (now - t)), false⟩ resp hresp |>.1,
      buildCurrentResponse_ok_fields lat lon units name country p
      ⟨true, some (max 0 (now - t)), false⟩ resp hresp |>.2.1⟩
    unfold fetch_current; rw [H]; simp [hresp]
  · intro e he
    unfold fetch_current; rw [H]; simp [he]

/-- Cached response the London scenario produces. -/
def respLondonCached : CurrentWeatherResponse :=
  { location :=
      { lat := (5151 : ℚ) / 100, lon := (-13 : ℚ) / 100,
        name := some (.str "London"), country := some (.str "GB") }
    units := "metric"
    observed_at := none
    current := payloadLondon
    provider := { name := "openweather", data_timestamp := some (.num 1700000000) }
    cache := ⟨true, some (max 0 ((100 : ℤ) - 70)), false⟩ }

/-- Witness for C2 at a concrete input: with the London record stored 30
seconds ago, `_fetch_current` returns the cached payload with hit and age 30
and neither calls upstream nor writes. -/
theorem C2_witness :
    (fetch_current 2 120 ((5151 : ℚ) / 100) ((-13 : ℚ) / 100) "metric" none
      none storeLondonHit 100 (.ok (.obj []))).upstreamCalled = false ∧
    (fetch_current 2 120 ((5151 : ℚ) / 100) ((-13 : ℚ) / 100) "metric" none
      none storeLondonHit 100 (.ok (.obj []))).cacheWritten = false ∧
    (fetch_current 2 120 ((5151 : ℚ) / 100) ((-13 : ℚ) / 100) "metric" none
      none storeLondonHit 100 (.ok (.obj []))).result =
      .ok respLondonCached := by
  have H := C2_cached_hit_no_upstream 2 120 ((5151 : ℚ) / 100)
    ((-13 : ℚ) / 100) "metric" none none storeLondonHit 100 (.ok (.obj []))
    70 payloadLondon (by simp [storeLondonHit])
  exact ⟨H.1, H.2.1, (H.2.2.2.2.1 respLondonCached rfl).1⟩

/-- A failed acquire means the lock key was held. -/
theorem acquire_lock_false {st : Store} {k : StoreKey}
    (h : (acquire_lock st k).1 = false) : ∃ v, st k = some v := by
  cases hk : st k with
  | none => rw [acquire_lock] at h; simp [hk] at h
  | some v => exact ⟨v, rfl⟩

/-- C3: a request that misses the cache and whose `acquire_lock` call
returns false terminates with the busy classification — `HTTPException` 503
with a retry message — never calls the upstream fetch, never writes the
cache, and leaves the store exactly as it was.  Stated for both
src/app/main.py handlers. -/
theorem C3_busy_on_lock_contention (decimals : ℤ) (ttlc ttlf : ℕ)
    (lat lon : ℚ) (units : String) (name country : Option String)
    (st : Store) (now : Int) (up : UpstreamBehavior)
    (hmiss_c : ∀ t p, st (StoreKey.data "current" units
      (rounded_coords lat lon decimals).1
      (rounded_coords lat lon decimals).2) ≠ some (.record t (some p)))
    (hlock_c : (acquire_lock st (StoreKey.lock "current" units
      (rounded_coords lat lon decimals).1
      (rounded_coords lat lon decimals).2)).1 = false)
    (hmiss_f : ∀ t p, st (StoreKey.data "forecast" units
      (rounded_coords lat lon decimals).1
      (rounded_coords lat lon decimals).2) ≠ some (.record t (some p)))
    (hlock_f : (acquire_lock st (StoreKey.lock "forecast" units
      (rounded_coords lat lon decimals).1
      (rounded_coords lat lon decimals).2)).1 = false) :
    fetch_current decimals ttlc lat lon units name country st now up =
      ⟨.httpError 503 "Weather refresh in progress, try again", st,
        true, false, false, false, false⟩ ∧
    fetch_forecast decimals ttlf lat lon units name country st now up =
      ⟨.httpError 503 "Forecast refresh in progress, try again", st,
        true, false, false, false, false⟩ := by
  obtain ⟨vc, hvc⟩ := acquire_lock_false hlock_c
  obtain ⟨vf, hvf⟩ := acquire_lock_false hlock_f
  constructor
  · unfold fetch_current
    rw [orchestrate_miss "current" units (rounded_coords lat lon decimals).1
      (rounded_coords lat lon decimals).2 ttlc st now up
      (buildCurrentResponse lat lon units name country)
      (.httpError 503 "Weather refresh in progress, try again")
      (fun _status body => .httpError 502 body)
      (fun msg => .httpError 502 msg)
      (fun e => .httpError 502 e) hmiss_c,
      orchestrateMiss_busy _ _ ttlc st now up
      (buildCurrentResponse lat lon units name country)
      (.httpError 503 "Weather refresh in progress, try again")
      (fun _status body => .httpError 502 body)
      (fun msg => .httpError 502 msg)
      (fun e => .httpError 502 e) vc hvc]
  · unfold fetch_forecast
    rw [orchestrate_miss "forecast" units (rounded_coords lat lon decimals).1
      (rounded_coords lat lon decimals).2 ttlf st now up
      (buildForecastResponse lat lon units name country)
      (.httpError 503 "Forecast refresh in progress, try again")
      (fun _status body => .httpError 502 body)
      (fun msg => .httpError 502 msg)
      (fun e => .httpError 502 e) hmiss_f,
      orchestrateMiss_busy _ _ ttlf st now up
      (buildForecastResponse lat lon units name country)
      (.httpError 503 "Forecast refresh in progress, try again")
      (fun _status body => .httpError 502 body)
      (fun msg => .httpError 502 msg)
      (fun e => .httpError 502 e) vf hvf]

/-- Store in which every lock key is held and no cache record exists,
modelling a concurrent in-flight refresh for every key. -/
def storeLocked : Store := fun k =>
  match k with
  | StoreKey.lock _ _ _ _ => some .lockMarker
  | _ => none

/-- Witness for C3 at a concrete input: with the locks held and an empty
cache, both handlers return busy 503 and leave the store untouched. -/
theorem C3_witness :
    fetch_current 2 120 ((5151 : ℚ) / 100) ((-13 : ℚ) / 100) "metric" none
      none storeLocked 100 (.ok (.obj [])) =
      ⟨.httpError 503 "Weather refresh in progress, try again", storeLocked,
        true, false, false, false, false⟩ ∧
    fetch_forecast 2 900 ((5151 : ℚ) / 100) ((-13 : ℚ) / 100) "metric" none
      none storeLocked 100 (.ok (.obj [])) =
      ⟨.httpError 503 "Forecast refresh in progress, try again", storeLocked,
        true, false, false, false, false⟩ :=
  C3_busy_on_lock_contention 2 120 900 ((5151 : ℚ) / 100) ((-13 : ℚ) / 100)
    "metric" none none storeLocked 100 (.ok (.obj []))
    (by intro t p; simp [storeLocked]) rfl
    (by intro t p; simp [storeLocked]) rfl

/-- C4: when the cache misses, the lock is acquired and the upstream fetch
fails — whether with an `httpx.HTTPStatusError` (e.g. an HTTP 500) or any
other raised exception — the orchestrator releases the lock, classifies the
result toward the caller as a gateway error (`HTTPException` 502 carrying
the upstream body or message), and leaves the store, in particular the cache
record for the key, unmodified at every key.  Stated for both
src/app/main.py handlers. -/
theorem C4_upstream_failure_gateway_error (decimals : ℤ) (ttlc ttlf : ℕ)
    (lat lon : ℚ) (units : String) (name country : Option String)
    (st : Store) (now : Int)
    (hmiss_c : ∀ t p, st (StoreKey.data "current" units
      (rounded_coords lat lon decimals).1
      (rounded_coords lat lon decimals).2) ≠ some (.record t (some p)))
    (hfree_c : st (StoreKey.lock "current" units
      (rounded_coords lat lon decimals).1
      (rounded_coords lat lon decimals).2) = none)
    (hmiss_f : ∀ t p, st (StoreKey.data "forecast" units
      (rounded_coords lat lon decimals).1
      (rounded_coords lat lon decimals).2) ≠ some (.record t (some p)))
    (hfree_f : st (StoreKey.lock "forecast" units
      (rounded_coords lat lon decimals).1
      (rounded_coords lat lon decimals).2) = none) :
    (∀ status body,
      (fetch_current decimals ttlc lat lon units name country st now
        (.httpStatusError status body)).result = .httpError 502 body ∧
      (fetch_current decimals ttlc lat lon units name country st now
        (.httpStatusError status body)).lockReleased = true ∧
      (fetch_current decimals ttlc lat lon units name country st now
        (.httpStatusError status body)).cacheWritten = false ∧
      (∀ k, (fetch_current decimals ttlc lat lon units name country st now
        (.httpStatusError status body)).store k = st k)) ∧
    (∀ msg,
      (fetch_current decimals ttlc lat lon units name country st now
        (.otherError msg)).result = .httpError 502 msg ∧
      (fetch_current decimals ttlc lat lon units name country st now
        (.otherError msg)).lockReleased = true ∧
      (fetch_current decimals ttlc lat lon units name country st now
        (.otherError msg)).cacheWritten = false ∧
      (∀ k, (fetch_current decimals ttlc lat lon units name country st now
        (.otherError msg)).store k = st k)) ∧
    (∀ status body,
      (fetch_forecast decimals ttlf lat lon units name country st now
        (.httpStatusError status body)).result = .httpError 502 body ∧
      (fetch_forecast decimals ttlf lat lon units name country st now
        (.httpStatusError status body)).lockReleased = true ∧
      (fetch_forecast decimals ttlf lat lon units name country st now
        (.httpStatusError status body)).cacheWritten = false ∧
      (∀ k, (fetch_forecast decimals ttlf lat lon units name country st now
        (.httpStatusError status body)).store k = st k)) ∧
    (∀ msg,
      (fetch_forecast decimals ttlf lat lon units name country st now
        (.otherError msg)).result = .httpError 502 msg ∧
      (fetch_forecast decimals ttlf lat lon units name country st now
        (.otherError msg)).lockReleased = true ∧
      (fetch_forecast decimals ttlf lat lon units name country st now
        (.otherError msg)).cacheWritten = false ∧
      (∀ k, (fetch_forecast decimals ttlf lat lon units name country st now
        (.otherError msg)).store k = st k)) := by
  refine ⟨?_, ?_, ?_, ?_⟩
  · intro status body
    unfold fetch_current
    rw [orchestrate_miss "current" units (rounded_coords lat lon decimals).1
      (rounded_coords lat lon decimals).2 ttlc st now
      (.httpStatusError status body)
      (buildCurrentResponse lat lon units name country)
      (.httpError 503 "Weather refresh in progress, try again")
      (fun _status body => .httpError 502 body)
      (fun msg => .httpError 502 msg)
      (fun e => .httpError 502 e) hmiss_c,
      orchestrateMiss_httpStatusError _ _ ttlc st now
      (buildCurrentResponse lat lon units name country)
      (.httpError 503 "Weather refresh in progress, try again")
      (fun _status body => .httpError 502 body)
      (fun msg => .httpError 502 msg)
      (fun e => .httpError 502 e) status body hfree_c]
    exact ⟨rfl, rfl, rfl, release_after_acquire_store st _ hfree_c⟩
  · intro msg
    unfold fetch_current
    rw [orchestrate_miss "current" units (rounded_coords lat lon decimals).1
      (rounded_coords lat lon decimals).2 ttlc st now (.otherError msg)
      (buildCurrentResponse lat lon units name country)
      (.httpError 503 "Weather refresh in progress, try again")
      (fun _status body => .httpError 502 body)
      (fun msg => .httpError 502 msg)
      (fun e => .httpError 502 e) hmiss_c,
      orchestrateMiss_otherError _ _ ttlc st now
      (buildCurrentResponse lat lon units name country)
      (.httpError 503 "Weather refresh in progress, try again")
      (fun _status body => .httpError 502 body)
      (fun msg => .httpError 502 msg)
      (fun e => .httpError 502 e) msg hfree_c]
    exact ⟨rfl, rfl, rfl, release_after_acquire_store st _ hfree_c⟩
  · intro status body
    unfold fetch_forecast
    rw [orchestrate_miss "forecast" units (rounded_coords lat lon decimals).1
      (rounded_coords lat lon decimals).2 ttlf st now
      (.httpStatusError status body)
      (buildForecastResponse lat lon units name country)
      (.httpError 503 "Forecast refresh in progress, try again")
      (fun _status body => .httpError 502 body)
      (fun msg => .httpError 502 msg)
      (fun e => .httpError 502 e) hmiss_f,
      orchestrateMiss_httpStatusError _ _ ttlf st now
      (buildForecastResponse lat lon units name country)
      (.httpError 503 "Forecast refresh in progress, try again")
      (fun _status body => .httpError 502 body)
      (fun msg => .httpError 502 msg)
      (fun e => .httpError 502 e) status body hfree_f]
    exact ⟨rfl, rfl, rfl, release_after_acquire_store st _ hfree_f⟩
  · intro msg
    unfold fetch_forecast
    rw [orchestrate_miss "forecast" units (rounded_coords lat lon decimals).1
      (rounded_coords lat lon decimals).2 ttlf st now (.otherError msg)
      (buildForecastResponse lat lon units name country)
      (.httpError 503 "Forecast refresh in progress, try again")
      (fun _status body => .httpError 502 body)
      (fun msg => .httpError 502 msg)
      (fun e => .httpError 502 e) hmiss_f,
      orchestrateMiss_otherError _ _ ttlf st now
      (buildForecastResponse lat lon units name country)
      (.httpError 503 "Forecast refresh in progress, try again")
      (fun _status body => .httpError 502 body)
      (fun msg => .httpError 502 msg)
      (fun e => .httpError 502 e) msg hfree_f]
    exact ⟨rfl, rfl, rfl, release_after_acquire_store st _ hfree_f⟩

/-- Witness for C4 at a concrete input: on an empty store an upstream HTTP
500 is returned as a 502 carrying the upstream body, with the lock released
and the cache key still absent. -/
theorem C4_witness :
    (fetch_current 2 120 ((5151 : ℚ) / 100) ((-13 : ℚ) / 100) "metric" none
      none (fun _ => none) 100
      (.httpStatusError 500 "Internal Server Error")).result =
      .httpError 502 "Internal Server Error" ∧
    (fetch_current 2 120 ((5151 : ℚ) / 100) ((-13 : ℚ) / 100) "metric" none
      none (fun _ => none) 100
      (.httpStatusError 500 "Internal Server Error")).lockReleased = true ∧
    (fetch_current 2 120 ((5151 : ℚ) / 100) ((-13 : ℚ) / 100) "metric" none
      none (fun _ => none) 100
      (.httpStatusError 500 "Internal Server Error")).store
      (StoreKey.data "current" "metric"
        (rounded_coords ((5151 : ℚ) / 100) ((-13 : ℚ) / 100) 2).1
        (rounded_coords ((5151 : ℚ) / 100) ((-13 : ℚ) / 100) 2).2) = none :=
  have H := C4_upstream_failure_gateway_error 2 120 900 ((5151 : ℚ) / 100)
    ((-13 : ℚ) / 100) "metric" none none (fun _ => none) 100
    (by intro t p; simp) rfl (by intro t p; simp) rfl
  ⟨(H.1 500 "Internal Server Error").1, (H.1 500 "Internal Server Error").2.1,
    (H.1 500 "Internal Server Error").2.2.2
      (StoreKey.data "current" "metric"
        (rounded_coords ((5151 : ℚ) / 100) ((-13 : ℚ) / 100) 2).1
        (rounded_coords ((5151 : ℚ) / 100) ((-13 : ℚ) / 100) 2).2)⟩

/-- The post-miss stage always calls `acquire_lock`. -/
theorem orchestrateMiss_lockAttempted {ρ : Type} (key lock_key : StoreKey)
    (ttl : ℕ) (st : Store) (now : Int) (up : UpstreamBehavior)
    (build : Json → CacheInfo → Except String ρ) (busy : HandlerResult ρ)
    (onHttpStatusErr : ℕ → String → HandlerResult ρ)
    (onOtherErr : String → HandlerResult ρ)
    (onFreshBuildErr : String → HandlerResult ρ) :
    (orchestrateMiss key lock_key ttl st now up build busy onHttpStatusErr
      onOtherErr onFreshBuildErr).lockAttempted = true := by
  cases hlk : st lock_key with
  | some v =>
      rw [orchestrateMiss_busy key lock_key ttl st now up build busy
        onHttpStatusErr onOtherErr onFreshBuildErr v hlk]
  | none =>
      cases up with
      | ok data =>
          rw [orchestrateMiss_fresh key lock_key ttl st now build busy
            onHttpStatusErr onOtherErr onFreshBuildErr data hlk]
      | httpStatusError status body =>
          rw [orchestrateMiss_httpStatusError key lock_key ttl st now build
            busy onHttpStatusErr onOtherErr onFreshBuildErr status body hlk]
      | otherError msg =>
          rw [orchestrateMiss_otherError key lock_key ttl st now build busy
            onHttpStatusErr onOtherErr onFreshBuildErr msg hlk]

/-- C9: a stored record that decodes but has no (or a null) `payload` field
is reported by `get_json` as a hit with a null payload and the record age,
and `_fetch_current` treats it as a miss — its cached branch requires both
`hit` and a non-null payload — proceeding to lock acquisition and, when the
lock is free, to the upstream fetch. -/
theorem C9_null_payload_hit_proceeds (decimals : ℤ) (ttl : ℕ) (lat lon : ℚ)
    (units : String) (name country : Option String) (st : Store) (now : Int)
    (up : UpstreamBehavior) (t : Int)
    (hrec : st (StoreKey.data "current" units
      (rounded_coords lat lon decimals).1
      (rounded_coords lat lon decimals).2) = some (.record t none)) :
    get_json st (StoreKey.data "current" units
      (rounded_coords lat lon decimals).1
      (rounded_coords lat lon decimals).2) now =
      ⟨none, true, some (max 0 (now - t)), false⟩ ∧
    (fetch_current decimals ttl lat lon units name country st now
      up).lockAttempted = true ∧
    (st (StoreKey.lock "current" units (rounded_coords lat lon decimals).1
        (rounded_coords lat lon decimals).2) = none →
      (fetch_current decimals ttl lat lon units name country st now
        up).lockAcquired = true ∧
      (fetch_current decimals ttl lat lon units name country st now
        up).upstreamCalled = true) := by
  have hmiss : ∀ t2 p, st (StoreKey.data "current" units
      (rounded_coords lat lon decimals).1
      (rounded_coords lat lon decimals).2) ≠ some (.record t2 (some p)) := by
    intro t2 p heq
    rw [hrec] at heq
    simp at heq
  have hm := orchestrate_miss "current" units
    (rounded_coords lat lon decimals).1
    (rounded_coords lat lon decimals).2 ttl st now up
    (buildCurrentResponse lat lon units name country)
    (.httpError 503 "Weather refresh in progress, try again")
    (fun _status body => .httpError 502 body)
    (fun msg => .httpError 502 msg)
    (fun e => .httpError 502 e) hmiss
  refine ⟨by simp [get_json, hrec], ?_, ?_⟩
  · unfold fetch_current
    rw [hm]
    exact orchestrateMiss_lockAttempted _ _ ttl st now up _ _ _ _ _
  · intro hfree
    unfold fetch_current
    rw [hm]
    cases up with
    | ok data =>
        rw [orchestrateMiss_fresh _ _ ttl st now
          (buildCurrentResponse lat lon units name country)
          (.httpError 503 "Weather refresh in progress, try again")
          (fun _status body => .httpError 502 body)
          (fun msg => .httpError 502 msg)
          (fun e => .httpError 502 e) data hfree]
        exact ⟨rfl, rfl⟩
    | httpStatusError status body =>
        rw [orchestrateMiss_httpStatusError _ _ ttl st now
          (buildCurrentResponse lat lon units name country)
          (.httpError 503 "Weather refresh in progress, try again")
          (fun _status body => .httpError 502 body)
          (fun msg => .httpError 502 msg)
          (fun e => .httpError 502 e) status body hfree]
        exact ⟨rfl, rfl⟩
    | otherError msg =>
        rw [orchestrateMiss_otherError _ _ ttl st now
          (buildCurrentResponse lat lon units name country)
          (.httpError 503 "Weather refresh in progress, try again")
          (fun _status body => .httpError 502 body)
          (fun msg => .httpError 502 msg)
          (fun e => .httpError 502 e) msg hfree]
        exact ⟨rfl, rfl⟩

/-- Store holding, under the London current-conditions key, a decodable
record whose `payload` field is absent. -/
def storeNullPayload : Store := fun k =>
  if k = StoreKey.data "current" "metric"
      (rounded_coords ((5151 : ℚ) / 100) ((-13 : ℚ) / 100) 2).1
      (rounded_coords ((5151 : ℚ) / 100) ((-13 : ℚ) / 100) 2).2
  then some (.record 70 none) else none

/-- Witness for C9 at a concrete input: the payload-less record yields a hit
with null payload, and the handler goes on to acquire the lock and call
upstream. -/
theorem C9_witness :
    get_json storeNullPayload (StoreKey.data "current" "metric"
      (rounded_coords ((5151 : ℚ) / 100) ((-13 : ℚ) / 100) 2).1
      (rounded_coords ((5151 : ℚ) / 100) ((-13 : ℚ) / 100) 2).2) 100 =
      ⟨none, true, some (max 0 ((100 : ℤ) - 70)), false⟩ ∧
    (fetch_current 2 120 ((5151 : ℚ) / 100) ((-13 : ℚ) / 100) "metric" none
      none storeNullPayload 100 (.ok payloadLondon)).lockAcquired = true ∧
    (fetch_current 2 120 ((5151 : ℚ) / 100) ((-13 : ℚ) / 100) "metric" none
      none storeNullPayload 100 (.ok payloadLondon)).upstreamCalled = true :=
  have H := C9_null_payload_hit_proceeds 2 120 ((5151 : ℚ) / 100)
    ((-13 : ℚ) / 100) "metric" none none storeNullPayload 100
    (.ok payloadLondon) 70 (by simp [storeNullPayload])
  ⟨H.1, (H.2.2 (by simp [storeNullPayload])).1,
    (H.2.2 (by simp [storeNullPayload])).2⟩

/-- C10: a request that misses the cache and fails to acquire the lock
performs no write to the shared store — the resulting store is exactly the
incoming one, so the cache is not written, `release_lock` is not called, and
the lock entry held by the in-flight request is left intact.  Stated for
both src/app/main.py handlers and both legacy src/main.py handlers (whose
busy outcome is an uncaught `NameError` instead of the 503, but who equally
touch nothing). -/
theorem C10_lock_loser_no_writes (decimals : ℤ) (ttlc ttlf : ℕ)
    (lat lon : ℚ) (units : String) (name country : Option String)
    (st : Store) (now : Int) (up : UpstreamBehavior)
    (hmiss_c : ∀ t p, st (StoreKey.data "current" units
      (rounded_coords lat lon decimals).1
      (rounded_coords lat lon decimals).2) ≠ some (.record t (some p)))
    (vc : StoredVal)
    (hheld_c : st (StoreKey.lock "current" units
      (rounded_coords lat lon decimals).1
      (rounded_coords lat lon decimals).2) = some vc)
    (hmiss_f : ∀ t p, st (StoreKey.data "forecast" units
      (rounded_coords lat lon decimals).1
      (rounded_coords lat lon decimals).2) ≠ some (.record t (some p)))
    (vf : StoredVal)
    (hheld_f : st (StoreKey.lock "forecast" units
      (rounded_coords lat lon decimals).1
      (rounded_coords lat lon decimals).2) = some vf) :
    fetch_current decimals ttlc lat lon units name country st now up =
      ⟨.httpError 503 "Weather refresh in progress, try again", st,
        true, false, false, false, false⟩ ∧
    fetch_forecast decimals ttlf lat lon units name country st now up =
      ⟨.httpError 503 "Forecast refresh in progress, try again", st,
        true, false, false, false, false⟩ ∧
    legacy_current_weather decimals ttlc lat lon units st now up =
      ⟨.uncaught nameErrorMsg, st, true, false, false, false, false⟩ ∧
    legacy_forecast decimals ttlf lat lon units st now up =
      ⟨.uncaught nameErrorMsg, st, true, false, false, false, false⟩ := by
  refine ⟨?_, ?_, ?_, ?_⟩
  · unfold fetch_current
    rw [orchestrate_miss "current" units (rounded_coords lat lon decimals).1
      (rounded_coords lat lon decimals).2 ttlc st now up
      (buildCurrentResponse lat lon units name country)
      (.httpError 503 "Weather refresh in progress, try again")
      (fun _status body => .httpError 502 body)
      (fun msg => .httpError 502 msg)
      (fun e => .httpError 502 e) hmiss_c,
      orchestrateMiss_busy _ _ ttlc st now up
      (buildCurrentResponse lat lon units name country)
      (.httpError 503 "Weather refresh in progress, try again")
      (fun _status body => .httpError 502 body)
      (fun msg => .httpError 502 msg)
      (fun e => .httpError 502 e) vc hheld_c]
  · unfold fetch_forecast
    rw [orchestrate_miss "forecast" units (rounded_coords lat lon decimals).1
      (rounded_coords lat lon decimals).2 ttlf st now up
      (buildForecastResponse lat lon units name country)
      (.httpError 503 "Forecast refresh in progress, try again")
      (fun _status body => .httpError 502 body)
      (fun msg => .httpError 502 msg)
      (fun e => .httpError 502 e) hmiss_f,
      orchestrateMiss_busy _ _ ttlf st now up
      (buildForecastResponse lat lon units name country)
      (.httpError 503 "Forecast refresh in progress, try again")
      (fun _status body => .httpError 502 body)
      (fun msg => .httpError 502 msg)
      (fun e => .httpError 502 e) vf hheld_f]
  · unfold legacy_current_weather
    rw [orchestrate_miss "current" units (rounded_coords lat lon decimals).1
      (rounded_coords lat lon decimals).2 ttlc st now up
      (buildCurrentResponse lat lon units none none)
      (.uncaught nameErrorMsg)
      (fun _status _body => .uncaught nameErrorMsg)
      (fun _msg => .uncaught nameErrorMsg)
      (fun _e => .uncaught nameErrorMsg) hmiss_c,
      orchestrateMiss_busy _ _ ttlc st now up
      (buildCurrentResponse lat lon units none none)
      (.uncaught nameErrorMsg)
      (fun _status _body => .uncaught nameErrorMsg)
      (fun _msg => .uncaught nameErrorMsg)
      (fun _e => .uncaught nameErrorMsg) vc hheld_c]
  · unfold legacy_forecast
    rw [orchestrate_miss "forecast" units (rounded_coords lat lon decimals).1
      (rounded_coords lat lon decimals).2 ttlf st now up
      (buildForecastResponse lat lon units none none)
      (.uncaught nameErrorMsg)
      (fun _status _body => .uncaught nameErrorMsg)
      (fun _msg => .uncaught nameErrorMsg)
      (fun _e => .uncaught nameErrorMsg) hmiss_f,
      orchestrateMiss_busy _ _ ttlf st now up
      (buildForecastResponse lat lon units none none)
      (.uncaught nameErrorMsg)
      (fun _status _body => .uncaught nameErrorMsg)
      (fun _msg => .uncaught nameErrorMsg)
      (fun _e => .uncaught nameErrorMsg) vf hheld_f]

/-- Witness for C10 at a concrete input: with every lock held and an empty
cache, all four handlers leave the store exactly as it was. -/
theorem C10_witness :
    (fetch_current 2 120 ((5151 : ℚ) / 100) ((-13 : ℚ) / 100) "metric" none
      none storeLocked 100 (.ok (.obj []))).store = storeLocked ∧
    (fetch_forecast 2 900 ((5151 : ℚ) / 100) ((-13 : ℚ) / 100) "metric" none
      none storeLocked 100 (.ok (.obj []))).store = storeLocked ∧
    (legacy_current_weather 2 120 ((5151 : ℚ) / 100) ((-13 : ℚ) / 100)
      "metric" storeLocked 100 (.ok (.obj []))).store = storeLocked ∧
    (legacy_forecast 2 900 ((5151 : ℚ) / 100) ((-13 : ℚ) / 100) "metric"
      storeLocked 100 (.ok (.obj []))).store = storeLocked :=
  have H := C10_lock_loser_no_writes 2 120 900 ((5151 : ℚ) / 100)
    ((-13 : ℚ) / 100) "metric" none none storeLocked 100 (.ok (.obj []))
    (by intro t p; simp [storeLocked]) .lockMarker rfl
    (by intro t p; simp [storeLocked]) .lockMarker rfl
  ⟨by rw [H.1], by rw [H.2.1], by rw [H.2.2.1], by rw [H.2.2.2]⟩

/-- Documents the src/main.py slip behind its divergence from the
spec-mandated error classes: on a cache miss with a free lock, an upstream
HTTP 500 makes the legacy `current_weather` raise an uncaught `NameError`
(its `except` clause references `httpx`, which the module never imports)
instead of a gateway-classified `HTTPException`; the `finally` still
releases the lock and the cache key is left unmodified. -/
theorem legacy_upstream_error_escapes_uncaught :
    (legacy_current_weather 2 120 ((5151 : ℚ) / 100) ((-13 : ℚ) / 100)
      "metric" (fun _ => none) 100
      (.httpStatusError 500 "Internal Server Error")).result =
      .uncaught nameErrorMsg ∧
    (legacy_current_weather 2 120 ((5151 : ℚ) / 100) ((-13 : ℚ) / 100)
      "metric" (fun _ => none) 100
      (.httpStatusError 500 "Internal Server Error")).lockReleased = true ∧
    (∀ k, (legacy_current_weather 2 120 ((5151 : ℚ) / 100) ((-13 : ℚ) / 100)
      "metric" (fun _ => none) 100
      (.httpStatusError 500 "Internal Server Error")).store k = none) := by
  have hm := orchestrate_miss "current" "metric"
    (rounded_coords ((5151 : ℚ) / 100) ((-13 : ℚ) / 100) 2).1
    (rounded_coords ((5151 : ℚ) / 100) ((-13 : ℚ) / 100) 2).2
    120 (fun _ => none) 100 (.httpStatusError 500 "Internal Server Error")
    (buildCurrentResponse ((5151 : ℚ) / 100) ((-13 : ℚ) / 100) "metric"
      none none)
    (.uncaught nameErrorMsg)
    (fun _status _body => .uncaught nameErrorMsg)
    (fun _msg => .uncaught nameErrorMsg)
    (fun _e => .uncaught nameErrorMsg)
    (by intro t p; simp)
  have he := orchestrateMiss_httpStatusError
    (StoreKey.data "current" "metric"
      (rounded_coords ((5151 : ℚ) / 100) ((-13 : ℚ) / 100) 2).1
      (rounded_coords ((5151 : ℚ) / 100) ((-13 : ℚ) / 100) 2).2)
    (StoreKey.lock "current" "metric"
      (rounded_coords ((5151 : ℚ) / 100) ((-13 : ℚ) / 100) 2).1
      (rounded_coords ((5151 : ℚ) / 100) ((-13 : ℚ) / 100) 2).2)
    120 (fun _ => none) 100
    (buildCurrentResponse ((5151 : ℚ) / 100) ((-13 : ℚ) / 100) "metric"
      none none)
    (.uncaught nameErrorMsg)
    (fun _status _body => .uncaught nameErrorMsg)
    (fun _msg => .uncaught nameErrorMsg)
    (fun _e => .uncaught nameErrorMsg)
    500 "Internal Server Error" rfl
  refine ⟨?_, ?_, ?_⟩
  · unfold legacy_current_weather; rw [hm, he]
  · unfold legacy_current_weather; rw [hm, he]
  · intro k
    unfold legacy_current_weather; rw [hm, he]
    exact release_after_acquire_store (fun _ => none) _ rfl k
